import Mathlib

/-!
Verification of `backend/do_worker.py` (ENERGY repository) against its
natural-language specification.

The file shallowly embeds the functions of the worker:
  * `_execute_command`   → `DOWorker.executeCommand`
  * the dispatch wrapper of `process_pending_commands` → `DOWorker.processOne`
  * `_should_enqueue` / `_enqueue_do` → `DOWorker.should_enqueue` / `DOWorker.enqueue_do`
  * `_enforce_auto_limit_restore` → `DOWorker.enforceAccount` / `DOWorker.enforcePass`
  * the active-mode cycle of `run_worker_loop` → `DOWorker.workerCycleSleep`

Device and database effects are made explicit: a `Device` record carries the
outcomes the fieldbus client would return (connect success, coil read result,
successive write results), and execution produces the list of observable
`Action`s (result persists, writes, sleeps, audit events) together with an
optional escaped exception.

Two genuine defects of the source are modelled faithfully rather than
repaired (each is flagged where it occurs):
  * `_execute_command` line 41 reads the local variable `target_state`,
    which is assigned only at lines 44 and 46 (the preceding code uses the
    distinct name `target_state_bool`); under Python scoping rules this read
    raises `UnboundLocalError` unconditionally once the connection succeeded.
  * `_enforce_auto_limit_restore` opens `try:` at line 137 with no matching
    `except`/`finally` clause before the next `def` at line 160 — a Python
    `SyntaxError`. The evidently intended handler (swallow the exception and
    return, matching both the pervasive `except Exception: pass`
    style and the documented "caller wraps the whole pass and swallows
    unexpected errors") is supplied in the model of the pass, and the body is
    translated from the source as written.
-/

namespace DOWorker

/-- Outcome of one `client.write_register` call: a truthy acknowledgement,
a falsy acknowledgement, or a raised transport error with its message. -/
inductive WriteOutcome where
  | ack : WriteOutcome
  | nack : WriteOutcome
  | err : String → WriteOutcome
deriving DecidableEq, Repr

/-- The behaviour the fieldbus client exhibits for one command execution:
whether `client.connect()` returns truthy, what `client.read_coil_state`
yields (`Except.error` models a raised exception; `Option Bool` models
the Python type `Optional[bool]`), and the successive `write_register` outcomes. -/
structure Device where
  connectOk : Bool
  readResult : Except String (Option Bool)
  writeOutcomes : List WriteOutcome
deriving Repr

/-- One fetched pending-command row (`_get_pending_commands` projection),
typed after the conversions at `_execute_command` lines 26–31.
`modbusId`/`maxRetries` keep the `Option` so the `or`-defaults of
lines 28 and 31 stay visible. -/
structure Cmd where
  commandId : Int
  analyzerId : Int
  ipAddress : String
  modbusId : Option Int
  coilAddress : Int
  command : String
  maxRetries : Option Int
deriving DecidableEq, Repr

/-- An observable side effect of command execution: a `_update_result` call,
a coil read, a register write, a backoff sleep (seconds), a disconnect,
or a `_record_do_event` call. -/
inductive Action where
  | updateResult : Int → String → Option String → Action
  | readCoil : Int → Action
  | writeRegister : Int → Int → Action
  | sleep : Nat → Action
  | disconnect : Action
  | recordEvent : Int → Option Int → Int → String → Bool → Action
deriving DecidableEq, Repr

/-- Result of running `_execute_command`: the actions it performed, and
`raised = some msg` when an exception escaped the function. -/
structure ExecOutcome where
  actions : List Action
  raised : Option String
deriving DecidableEq, Repr

/-- Model of the exception raised at `_execute_command` line 41: the line
`if target_state is None:` reads the local `target_state`, which is assigned
only later (lines 44 and 46), so Python raises `UnboundLocalError`. -/
def unboundTargetState : String :=
  "UnboundLocalError: local variable target_state referenced before assignment"

/-- Shallow embedding of `_execute_command` (do_worker.py lines 25–87).
Lines 26–31 convert the row fields (with `or`-defaults for `ModbusID` → 1 and
`MaxRetries` → 3). Line 34 connects; on failure lines 35–37 persist
FAILED `connect_failed:<host>` and return. Otherwise line 39 computes
`target_state_bool = {"ON": True, "OFF": False}.get(command)` and line 40
`target_value = 1 if target_state_bool else 0`; then line 41
(`if target_state is None:`) reads the unassigned local `target_state` and
raises `UnboundLocalError`, so the idempotence check (lines 50–61), the retry
loop (lines 62–75) and the terminal persists (lines 77–87) are unreachable. -/
def executeCommand (cmd : Cmd) (dev : Device) : ExecOutcome :=
  let command := cmd.command.toUpper
  let _unit_id : Int := match cmd.modbusId with
    | none => 1
    | some m => if m = 0 then 1 else m
  let _max_retries : Int := match cmd.maxRetries with
    | none => 3
    | some m => if m = 0 then 3 else m
  if dev.connectOk = false then
    { actions := [Action.updateResult cmd.commandId "FAILED"
        (some ("connect_failed:" ++ cmd.ipAddress))],
      raised := none }
  else
    let target_state_bool : Option Bool :=
      if command = "ON" then some true
      else if command = "OFF" then some false
      else none
    let _target_value : Int := if target_state_bool = some true then 1 else 0
    -- line 41: `if target_state is None:` — UnboundLocalError; nothing below runs
    { actions := [], raised := some unboundTargetState }

/-- The per-command wrapper inside `process_pending_commands`
(lines 93–100): an exception escaping `_execute_command` is caught and
converted into a FAILED persist tagged `unexpected:<detail>` (whose own
failure would be swallowed; the model lets it succeed). Returns the actions
observable for that command. -/
def processOne (cmd : Cmd) (dev : Device) : List Action :=
  let r := executeCommand cmd dev
  match r.raised with
  | none => r.actions
  | some msg =>
      r.actions ++ [Action.updateResult cmd.commandId "FAILED" (some ("unexpected:" ++ msg))]

/-- Is the action a register write? -/
def Action.isWrite : Action → Bool
  | Action.writeRegister _ _ => true
  | _ => false

/-- Is the action a backoff sleep? -/
def Action.isSleep : Action → Bool
  | Action.sleep _ => true
  | _ => false

/-- Is the action an audit-event record (`_record_do_event`)? -/
def Action.isEvent : Action → Bool
  | Action.recordEvent _ _ _ _ _ => true
  | _ => false

/-- One row of `app.DigitalOutputCommands` as the dedup query and the
enqueue stored procedure see it. `requestedAt` is in seconds. -/
structure StoredCommand where
  analyzerId : Int
  coilAddress : Int
  command : String
  executionResult : String
  requestedAt : Int
  requestedBy : Int
  maxRetries : Int
  notes : String
deriving DecidableEq, Repr

/-- The command store plus the failure modes of the two database calls the
enqueue path makes: `lookupRaises` models `db_helper.execute_query` raising
inside `_should_enqueue`, `insertRaises` models
`db_helper.execute_stored_procedure` raising inside `_enqueue_do`.
`now` is the current time in seconds (`GETUTCDATE()`). -/
structure Store where
  commands : List StoredCommand
  now : Int
  lookupRaises : Bool
  insertRaises : Bool
deriving Repr

/-- The dedup query of `_should_enqueue` (lines 105–114): does a row exist
with the same analyzer, coil and verb, still PENDING, requested within the
last 5 seconds (`RequestedAt >= DATEADD(SECOND, -5, GETUTCDATE())`)? -/
def dedupHit (s : Store) (analyzer_id coil_address : Int) (command : String) : Bool :=
  s.commands.any fun c =>
    c.analyzerId = analyzer_id && c.coilAddress = coil_address &&
    c.command = command && c.executionResult = "PENDING" &&
    decide (c.requestedAt ≥ s.now - 5)

/-- Shallow embedding of `_should_enqueue` (lines 103–117): run the dedup
query and return `not rows`; if the query raises, return `True` (fail open). -/
def should_enqueue (s : Store) (analyzer_id coil_address : Int) (command : String) : Bool :=
  if s.lookupRaises then true
  else !(dedupHit s analyzer_id coil_address command)

/-- Modelled from the spec: the stored procedure `app.sp_ControlDigitalOutput`
is not in the repository; per §6 the `enqueue` entry point of the Command Store
creates a PENDING command row from the given parameters. `_enqueue_do`
(lines 123–130) passes `MaxRetries = 3`, `RequestedBy = requested_by or 0`,
and a notes text of the form `source=<source>;reason=<reason or empty>`. -/
def insertCommand (s : Store) (analyzer_id coil_address : Int)
    (command source : String) (reason : Option String) (requested_by : Option Int) :
    Store :=
  { s with commands := s.commands ++
      [{ analyzerId := analyzer_id, coilAddress := coil_address, command := command,
         executionResult := "PENDING", requestedAt := s.now,
         requestedBy := (requested_by.getD 0), maxRetries := 3,
         notes := "source=" ++ source ++ ";reason=" ++ reason.getD "" }] }

/-- Shallow embedding of `_enqueue_do` (lines 119–134): if the guard says not
to enqueue, return `False` with no insert; otherwise run the insert (if it
raises, the `except` returns `False`) and return `True`. The returned pair is
(reported boolean, resulting store). -/
def enqueue_do (s : Store) (analyzer_id coil_address : Int)
    (command source : String) (reason : Option String)
    (requested_by : Option Int) : Bool × Store :=
  if should_enqueue s analyzer_id coil_address command = false then (false, s)
  else if s.insertRaises then (false, s)
  else (true, insertCommand s analyzer_id coil_address command source reason requested_by)

/-- One active analyzer row of the per-account query at lines 145–148
(`SELECT AnalyzerID, ISNULL(BreakerCoilAddress, 0) as Coil,
ISNULL(BreakerEnabled, 0) as Enabled ... WHERE UserID = ? AND IsActive = 1`).
The `Option` fields model NULL columns; the `ISNULL` defaults of the query are
applied in `enforceAccount`. -/
structure Analyzer where
  analyzerId : Int
  breakerCoilAddress : Option Int
  breakerEnabled : Option Int
deriving DecidableEq, Repr

/-- One active account row of the query at lines 138–140, bundled with what
the per-account analyzer query would yield for it: its active analyzers, or
a raised database error (`analyzersQueryRaises`). The `Option` numeric fields
model NULL columns, resolved by the `or`-defaults at lines 142–143. -/
structure EnfAccount where
  userId : Int
  allocatedKWh : Option ℚ
  usedKWh : Option ℚ
  analyzersQueryRaises : Bool
  analyzers : List Analyzer

/-- A call to `_enqueue_do` as issued by the Enforcement Engine
(lines 156 and 158): target analyzer, coil, verb, source tag and reason. -/
structure EnqueueReq where
  analyzerId : Int
  coilAddress : Int
  command : String
  source : String
  reason : String
deriving DecidableEq, Repr

/-- The usage percentage computed at line 144:
`pct = (used / alloc * 100.0) if alloc > 0 else (100.0 if used > 0 else 0.0)`,
after the `or 0.0` defaults of lines 142–143. Floats are modelled as exact
rationals. -/
def accountPct (u : EnfAccount) : ℚ :=
  let alloc := u.allocatedKWh.getD 0
  let used := u.usedKWh.getD 0
  if alloc > 0 then used / alloc * 100 else if used > 0 then 100 else 0

/-- The per-account body of `_enforce_auto_limit_restore` (lines 141–158):
for each active analyzer, skip it unless `Enabled == 1` (line 150), compute
`coil = int(a.get("Coil") or 0)` (line 152, on top of the
`ISNULL(BreakerCoilAddress, 0)`), skip when outside `[0, 9999]` (line 153),
then submit `ON` with reason "Units exceeded 100%" when `pct >= 100.0`, else
`OFF` with reason "Recharge completed" (lines 155–158). Returns the
`_enqueue_do` calls issued for this account. -/
def enforceAccount (u : EnfAccount) : List EnqueueReq :=
  let pct := accountPct u
  u.analyzers.filterMap fun a =>
    if (a.breakerEnabled.getD 0) ≠ 1 then none
    else
      let coil := a.breakerCoilAddress.getD 0
      if coil < 0 ∨ coil > 9999 then none
      else if pct ≥ 100 then
        some { analyzerId := a.analyzerId, coilAddress := coil, command := "ON",
               source := "auto_limit", reason := "Units exceeded 100%" }
      else
        some { analyzerId := a.analyzerId, coilAddress := coil, command := "OFF",
               source := "auto_restore", reason := "Recharge completed" }

/-- Shallow embedding of `_enforce_auto_limit_restore` (lines 136–158) over
the fetched list of active accounts. The whole body sits inside the single
`try:` opened at line 137, which in the source has no `except`/`finally`
clause (a syntax error); the model supplies the evidently intended
`except Exception: pass` handler. Consequently the first exception raised
while processing an account (here: its analyzer query raising) abandons the
rest of the account list. Returns every `_enqueue_do` call issued. -/
def enforcePass : List EnfAccount → List EnqueueReq
  | [] => []
  | u :: rest =>
      if u.analyzersQueryRaises then []
      else enforceAccount u ++ enforcePass rest

/-- The adaptive sleep at the end of one active-mode cycle of
`run_worker_loop` (lines 208–217): `_enforce_auto_limit_restore` errors are
swallowed (lines 209–212), a `process_pending_commands` error collapses the
count to `0` (lines 213–216), and line 217 sleeps
`poll_interval_seconds if count == 0 else 1`. The argument models the
dispatch outcome: `Except.error` for a raised exception, `Except.ok n` for a
processed count of `n`. Returns the seconds slept. -/
def workerCycleSleep (poll_interval_seconds : Nat) (dispatch : Except String Nat) : Nat :=
  let count := match dispatch with
    | Except.ok n => n
    | Except.error _ => 0
  if count = 0 then poll_interval_seconds else 1

/-- The default poll interval of `run_worker_loop` (line 195). -/
def defaultPollInterval : Nat := 5

/-! Concrete inputs used by the witnesses and counterexamples below. -/

/-- A pending command with verb ON and `MaxRetries = 3`. -/
def c1Cmd : Cmd :=
  { commandId := 1, analyzerId := 7, ipAddress := "10.0.0.5", modbusId := some 1,
    coilAddress := 3, command := "ON", maxRetries := some 3 }

/-- A device whose connection succeeds and whose write would fail (falsy
acknowledgement) on all three attempts. -/
def c1Dev : Device :=
  { connectOk := true, readResult := Except.ok (some false),
    writeOutcomes := [WriteOutcome.nack, WriteOutcome.nack, WriteOutcome.nack] }

/-- A pending command with verb ON. -/
def c2Cmd : Cmd :=
  { commandId := 2, analyzerId := 8, ipAddress := "10.0.0.6", modbusId := some 1,
    coilAddress := 4, command := "ON", maxRetries := some 3 }

/-- A device whose connection succeeds and whose coil already reads `true`,
i.e. equal to the target the verb ON resolves to. -/
def c2Dev : Device :=
  { connectOk := true, readResult := Except.ok (some true),
    writeOutcomes := [WriteOutcome.ack] }

/-- A pending command with verb TOGGLE. -/
def c3Cmd : Cmd :=
  { commandId := 3, analyzerId := 9, ipAddress := "10.0.0.7", modbusId := some 1,
    coilAddress := 6, command := "TOGGLE", maxRetries := some 3 }

/-- A device whose connection succeeds and whose coil reads `true`, so a
TOGGLE should resolve to target `false`. -/
def c3Dev : Device :=
  { connectOk := true, readResult := Except.ok (some true),
    writeOutcomes := [WriteOutcome.ack] }

/-- A pending command used for the connection-failure scenario. -/
def c4Cmd : Cmd :=
  { commandId := 11, analyzerId := 2, ipAddress := "192.168.1.9", modbusId := some 4,
    coilAddress := 12, command := "ON", maxRetries := some 3 }

/-- A device whose `connect()` returns falsy. -/
def c4Dev : Device :=
  { connectOk := false, readResult := Except.ok none, writeOutcomes := [] }

/-- An active analyzer with breaker control enabled and coil address 5. -/
def enfAnalyzer0 : Analyzer :=
  { analyzerId := 21, breakerCoilAddress := some 5, breakerEnabled := some 1 }

/-- The ON corrective request the engine issues for `enfAnalyzer0`. -/
def onReq21 : EnqueueReq :=
  { analyzerId := 21, coilAddress := 5, command := "ON", source := "auto_limit",
    reason := "Units exceeded 100%" }

/-- The OFF corrective request the engine issues for `enfAnalyzer0`. -/
def offReq21 : EnqueueReq :=
  { analyzerId := 21, coilAddress := 5, command := "OFF", source := "auto_restore",
    reason := "Recharge completed" }

/-- Account with allocated 100 and used 100 (usage 100 percent). -/
def acctA : EnfAccount :=
  { userId := 1, allocatedKWh := some 100, usedKWh := some 100,
    analyzersQueryRaises := false, analyzers := [enfAnalyzer0] }

/-- Account with allocated 100 and used 50 (usage 50 percent). -/
def acctB : EnfAccount :=
  { userId := 2, allocatedKWh := some 100, usedKWh := some 50,
    analyzersQueryRaises := false, analyzers := [enfAnalyzer0] }

/-- Account with allocated 0 and used 0 (usage 0 percent by the guard). -/
def acctC : EnfAccount :=
  { userId := 3, allocatedKWh := some 0, usedKWh := some 0,
    analyzersQueryRaises := false, analyzers := [enfAnalyzer0] }

/-- Account with allocated 0 and used 1 (usage forced to 100 by the guard). -/
def acctD : EnfAccount :=
  { userId := 4, allocatedKWh := some 0, usedKWh := some 1,
    analyzersQueryRaises := false, analyzers := [enfAnalyzer0] }

/-- A PENDING ON command row requested 2 seconds ago (inside the 5-second
dedup window of a store whose clock reads 100). -/
def pendingOnRow : StoredCommand :=
  { analyzerId := 21, coilAddress := 5, command := "ON",
    executionResult := "PENDING", requestedAt := 98, requestedBy := 0,
    maxRetries := 3, notes := "source=auto_limit;reason=Units exceeded 100%" }

/-- A store holding `pendingOnRow`, with both database calls succeeding. -/
def dedupStore : Store :=
  { commands := [pendingOnRow], now := 100,
    lookupRaises := false, insertRaises := false }

/-- An account whose per-account analyzer query raises. -/
def failingAccount : EnfAccount :=
  { userId := 30, allocatedKWh := some 100, usedKWh := some 100,
    analyzersQueryRaises := true, analyzers := [] }

/-- An over-limit account whose processing succeeds and would submit an ON
corrective command for `enfAnalyzer0`. -/
def healthyAccount : EnfAccount :=
  { userId := 31, allocatedKWh := some 100, usedKWh := some 150,
    analyzersQueryRaises := false, analyzers := [enfAnalyzer0] }

/-- An enabled analyzer whose breaker coil address column is NULL. -/
def nullCoilAnalyzer : Analyzer :=
  { analyzerId := 33, breakerCoilAddress := none, breakerEnabled := some 1 }

/-- An over-limit account owning only `nullCoilAnalyzer`. -/
def nullCoilAccount : EnfAccount :=
  { userId := 5, allocatedKWh := some 100, usedKWh := some 200,
    analyzersQueryRaises := false, analyzers := [nullCoilAnalyzer] }

/-- Helper: any enabled analyzer of an account whose coil lies in `[0, 9999]`
contributes one corrective request to `enforceAccount`, ON when the usage
percentage is at least 100 and OFF otherwise. -/
theorem mem_enforceAccount (u : EnfAccount) (a : Analyzer) (ha : a ∈ u.analyzers)
    (hen : a.breakerEnabled.getD 0 = 1)
    (h0 : 0 ≤ a.breakerCoilAddress.getD 0) (h1 : a.breakerCoilAddress.getD 0 ≤ 9999) :
    (if accountPct u ≥ 100 then
       ({ analyzerId := a.analyzerId, coilAddress := a.breakerCoilAddress.getD 0,
          command := "ON", source := "auto_limit",
          reason := "Units exceeded 100%" } : EnqueueReq)
     else
       { analyzerId := a.analyzerId, coilAddress := a.breakerCoilAddress.getD 0,
         command := "OFF", source := "auto_restore",
         reason := "Recharge completed" }) ∈ enforceAccount u := by
  simp only [enforceAccount, List.mem_filterMap]
  refine ⟨a, ha, ?_⟩
  rw [if_neg (by simp [hen])]
  rw [if_neg (by omega)]
  by_cases hp : accountPct u ≥ 100
  · rw [if_pos hp, if_pos hp]
  · rw [if_neg hp, if_neg hp]

/-- C1: the claim states that a connected command with `max_retries = 3`
whose write always fails performs exactly 3 write attempts with exactly 2
backoff waits and ends FAILED with the error of the last attempt. The code
cannot do this: at line 41 `_execute_command` reads the unassigned local
`target_state` and raises `UnboundLocalError` before the retry loop, so zero
writes and zero sleeps occur, and the dispatch wrapper persists FAILED with
an `unexpected:` error instead of the per-attempt error. -/
theorem retry_bound_code_bug :
    executeCommand c1Cmd c1Dev = { actions := [], raised := some unboundTargetState } ∧
    (executeCommand c1Cmd c1Dev).actions.filter Action.isWrite = [] ∧
    (executeCommand c1Cmd c1Dev).actions.filter Action.isSleep = [] ∧
    processOne c1Cmd c1Dev =
      [Action.updateResult 1 "FAILED" (some ("unexpected:" ++ unboundTargetState))] :=
  ⟨rfl, rfl, rfl, rfl⟩

/-- C2: the claim states that a connected command whose current coil state
already equals the resolved target is marked SUCCESS with a success audit
event and no write. The code cannot reach the idempotence check at
lines 50–61: line 41 raises `UnboundLocalError` first, so even with the coil
already reading `true` for an ON command, no SUCCESS result and no audit
event are produced — the dispatch wrapper persists FAILED `unexpected:`. -/
theorem idempotence_code_bug :
    c2Dev.connectOk = true ∧
    c2Dev.readResult = Except.ok (some true) ∧
    executeCommand c2Cmd c2Dev = { actions := [], raised := some unboundTargetState } ∧
    Action.updateResult 2 "SUCCESS" none ∉ processOne c2Cmd c2Dev ∧
    (executeCommand c2Cmd c2Dev).actions.filter Action.isEvent = [] ∧
    processOne c2Cmd c2Dev =
      [Action.updateResult 2 "FAILED" (some ("unexpected:" ++ unboundTargetState))] :=
  ⟨rfl, rfl, rfl, by decide, rfl, rfl⟩

/-- C3: the claim states that the target state resolves ON to true, OFF to
false, and any other verb to the inversion of the read coil state, encoded
1/0 in the written value. In the code the resolution block itself is the
defect: line 41 reads the unassigned local `target_state` and raises
`UnboundLocalError` for every verb (and the TOGGLE branch at lines 43–46
would assign `target_state`, never read afterwards, while the written
`target_value` was already fixed at line 40 before resolution). Evaluated on
a TOGGLE command, execution raises with no write performed. -/
theorem target_resolution_code_bug :
    executeCommand c3Cmd c3Dev = { actions := [], raised := some unboundTargetState } ∧
    (executeCommand c3Cmd c3Dev).actions.filter Action.isWrite = [] ∧
    processOne c3Cmd c3Dev =
      [Action.updateResult 3 "FAILED" (some ("unexpected:" ++ unboundTargetState))] :=
  ⟨rfl, rfl, rfl⟩

/-- C4: if opening the connection fails, the executor persists exactly the
terminal result FAILED with error `connect_failed:<address>` and returns at
once: no write attempt, no backoff sleep, no audit event. -/
theorem connect_failure_terminal (cmd : Cmd) (dev : Device)
    (h : dev.connectOk = false) :
    executeCommand cmd dev =
      { actions := [Action.updateResult cmd.commandId "FAILED"
          (some ("connect_failed:" ++ cmd.ipAddress))], raised := none } ∧
    (executeCommand cmd dev).actions.filter Action.isWrite = [] ∧
    (executeCommand cmd dev).actions.filter Action.isSleep = [] ∧
    (executeCommand cmd dev).actions.filter Action.isEvent = [] := by
  refine ⟨by simp [executeCommand, h], ?_, ?_, ?_⟩ <;>
    simp [executeCommand, h, List.filter, Action.isWrite, Action.isSleep, Action.isEvent]

/-- Witness for C4 at a concrete unreachable device. -/
theorem connect_failure_terminal_witness :
    c4Dev.connectOk = false ∧
    (executeCommand c4Cmd c4Dev =
      { actions := [Action.updateResult c4Cmd.commandId "FAILED"
          (some ("connect_failed:" ++ c4Cmd.ipAddress))], raised := none } ∧
     (executeCommand c4Cmd c4Dev).actions.filter Action.isWrite = [] ∧
     (executeCommand c4Cmd c4Dev).actions.filter Action.isSleep = [] ∧
     (executeCommand c4Cmd c4Dev).actions.filter Action.isEvent = []) :=
  ⟨rfl, connect_failure_terminal c4Cmd c4Dev rfl⟩

/-- C5: the Enforcement Engine computes the usage percentage as
`used/allocated*100` when `allocated > 0` and as 100 or 0 (used positive or
not) when `allocated = 0`; every enabled analyzer with coil in `[0, 9999]`
receives an ON corrective request when the percentage is at least 100 and an
OFF request otherwise; in particular allocated 100 / used 100 submits ON,
allocated 100 / used 50 submits OFF, allocated 0 / used 0 submits OFF and
allocated 0 / used 1 submits ON. -/
theorem threshold_policy :
    (∀ u : EnfAccount, u.allocatedKWh.getD 0 > 0 →
      accountPct u = u.usedKWh.getD 0 / u.allocatedKWh.getD 0 * 100) ∧
    (∀ u : EnfAccount, u.allocatedKWh.getD 0 = 0 →
      accountPct u = if u.usedKWh.getD 0 > 0 then 100 else 0) ∧
    (∀ u : EnfAccount, ∀ a ∈ u.analyzers, a.breakerEnabled.getD 0 = 1 →
      0 ≤ a.breakerCoilAddress.getD 0 → a.breakerCoilAddress.getD 0 ≤ 9999 →
      (accountPct u ≥ 100 →
        ({ analyzerId := a.analyzerId, coilAddress := a.breakerCoilAddress.getD 0,
           command := "ON", source := "auto_limit",
           reason := "Units exceeded 100%" } : EnqueueReq) ∈ enforceAccount u) ∧
      (accountPct u < 100 →
        ({ analyzerId := a.analyzerId, coilAddress := a.breakerCoilAddress.getD 0,
           command := "OFF", source := "auto_restore",
           reason := "Recharge completed" } : EnqueueReq) ∈ enforceAccount u)) ∧
    (enforceAccount acctA = [onReq21] ∧ enforceAccount acctB = [offReq21] ∧
     enforceAccount acctC = [offReq21] ∧ enforceAccount acctD = [onReq21]) := by
  refine ⟨?_, ?_, ?_, ?_, ?_, ?_, ?_⟩
  · intro u h
    simp only [accountPct]
    rw [if_pos h]
  · intro u h
    simp only [accountPct]
    rw [if_neg (by rw [h]; exact lt_irrefl 0)]
  · intro u a ha hen h0 h1
    have hm := mem_enforceAccount u a ha hen h0 h1
    constructor
    · intro hp
      rwa [if_pos hp] at hm
    · intro hp
      rwa [if_neg (not_le.mpr hp)] at hm
  · norm_num [enforceAccount, accountPct, acctA, enfAnalyzer0, List.filterMap, onReq21]
  · norm_num [enforceAccount, accountPct, acctB, enfAnalyzer0, List.filterMap, offReq21]
  · norm_num [enforceAccount, accountPct, acctC, enfAnalyzer0, List.filterMap, offReq21]
  · norm_num [enforceAccount, accountPct, acctD, enfAnalyzer0, List.filterMap, onReq21]

/-- Witness for C5: the exactly-at-limit account with an enabled in-range
analyzer receives the ON corrective request. -/
theorem threshold_policy_witness :
    (enfAnalyzer0 ∈ acctA.analyzers ∧ enfAnalyzer0.breakerEnabled.getD 0 = 1 ∧
     0 ≤ enfAnalyzer0.breakerCoilAddress.getD 0 ∧
     enfAnalyzer0.breakerCoilAddress.getD 0 ≤ 9999 ∧ accountPct acctA ≥ 100) ∧
    onReq21 ∈ enforceAccount acctA := by
  refine ⟨⟨by decide, by decide, by decide, by decide, by norm_num [accountPct, acctA]⟩, ?_⟩
  exact (threshold_policy.2.2.1 acctA enfAnalyzer0 (by decide) (by decide) (by decide)
    (by decide)).1 (by norm_num [accountPct, acctA])

/-- C6: when an identical pending command (same analyzer, same coil, same
verb, still PENDING, requested within the last 5 seconds) exists and the
lookup succeeds, `_enqueue_do` reports false and leaves the store unchanged;
when the dedup lookup raises, `_should_enqueue` fails open (returns true),
and the enqueue then proceeds whenever the insert itself succeeds. -/
theorem dedup_guard (s : Store) (analyzer_id coil_address : Int)
    (command source : String) (reason : Option String) (requested_by : Option Int) :
    (s.lookupRaises = false → dedupHit s analyzer_id coil_address command = true →
      enqueue_do s analyzer_id coil_address command source reason requested_by = (false, s)) ∧
    (s.lookupRaises = true →
      should_enqueue s analyzer_id coil_address command = true ∧
      (s.insertRaises = false →
        (enqueue_do s analyzer_id coil_address command source reason requested_by).1 = true)) := by
  constructor
  · intro hl hd
    simp [enqueue_do, should_enqueue, hl, hd]
  · intro hl
    refine ⟨by simp [should_enqueue, hl], fun hi => ?_⟩
    simp [enqueue_do, should_enqueue, hl, hi]

/-- Witness for C6: a duplicate ON request 2 seconds after a matching
pending row is not enqueued. -/
theorem dedup_guard_witness :
    (dedupStore.lookupRaises = false ∧ dedupHit dedupStore 21 5 "ON" = true) ∧
    enqueue_do dedupStore 21 5 "ON" "auto_limit" (some "Units exceeded 100%") none =
      (false, dedupStore) :=
  ⟨⟨rfl, by decide⟩,
   (dedup_guard dedupStore 21 5 "ON" "auto_limit" (some "Units exceeded 100%") none).1
     rfl (by decide)⟩

/-- C7 counterexample: with a failing account followed by a healthy
over-limit account, the pass yields no request at all — in particular the
ON request the healthy account would have produced on its own is absent, so
a failure in one account does abort the processing of the remaining ones. -/
theorem account_isolation_counterexample :
    enforcePass [failingAccount, healthyAccount] = [] ∧
    enforceAccount healthyAccount = [onReq21] ∧
    onReq21 ∉ enforcePass [failingAccount, healthyAccount] := by
  refine ⟨rfl, ?_, by simp [enforcePass, failingAccount]⟩
  norm_num [enforceAccount, accountPct, healthyAccount, enfAnalyzer0, List.filterMap, onReq21]

/-- C7 amended: a failure raised while processing one account aborts the
remaining accounts of that enforcement pass — the pass keeps exactly the
requests of the accounts before the failing one and evaluates none after it —
while the exception is swallowed at pass level, so the Scheduler itself
continues. -/
theorem account_failure_aborts_pass (pre post : List EnfAccount) (u : EnfAccount)
    (hpre : ∀ v ∈ pre, v.analyzersQueryRaises = false)
    (hu : u.analyzersQueryRaises = true) :
    enforcePass (pre ++ u :: post) = enforcePass pre ∧
    enforcePass (u :: post) = [] := by
  constructor
  · induction pre with
    | nil => simp [enforcePass, hu]
    | cons v vs ih =>
        have hv : v.analyzersQueryRaises = false := hpre v (by simp)
        have hrest := ih (fun w hw => hpre w (by simp [hw]))
        simp [enforcePass, hv, hrest]
  · simp [enforcePass, hu]

/-- Witness for the amended C7 at concrete accounts. -/
theorem account_failure_aborts_pass_witness :
    ((∀ v ∈ [healthyAccount], v.analyzersQueryRaises = false) ∧
     failingAccount.analyzersQueryRaises = true) ∧
    (enforcePass ([healthyAccount] ++ failingAccount :: [healthyAccount]) =
       enforcePass [healthyAccount] ∧
     enforcePass (failingAccount :: [healthyAccount]) = []) :=
  ⟨⟨by decide, rfl⟩,
   account_failure_aborts_pass [healthyAccount] [healthyAccount] failingAccount
     (by decide) rfl⟩

/-- C8: a cycle whose dispatch processed zero commands sleeps the full
configured poll interval (default 5), a cycle that processed at least one
command sleeps the short fixed interval 1, and a dispatch error collapses
the count to zero, hence sleeps the full interval. -/
theorem adaptive_cadence (poll : Nat) (n : Nat) (e : String) :
    workerCycleSleep poll (Except.ok 0) = poll ∧
    (1 ≤ n → workerCycleSleep poll (Except.ok n) = 1) ∧
    workerCycleSleep poll (Except.error e) = poll ∧
    defaultPollInterval = 5 := by
  refine ⟨rfl, fun hn => ?_, rfl, rfl⟩
  simp only [workerCycleSleep]
  rw [if_neg (by omega)]

/-- Witness for C8: three processed commands sleep 1 second; zero processed
commands or a dispatch error sleep the default 5 seconds. -/
theorem adaptive_cadence_witness :
    (1 ≤ 3 ∧ workerCycleSleep 5 (Except.ok 3) = 1) ∧
    workerCycleSleep 5 (Except.ok 0) = 5 ∧
    workerCycleSleep 5 (Except.error "dispatch error") = 5 :=
  ⟨⟨by decide, (adaptive_cadence 5 3 "dispatch error").2.1 (by decide)⟩,
   (adaptive_cadence 5 3 "dispatch error").1,
   (adaptive_cadence 5 3 "dispatch error").2.2.1⟩

/-- C9 counterexample: the ON corrective request of an over-limit account
carries reason "Units exceeded 100%", not "limit exceeded", and the OFF
request of an under-limit account carries "Recharge completed" (capital R),
not "recharge completed". -/
theorem reason_tags_counterexample :
    (enforceAccount acctA = [onReq21] ∧ onReq21.command = "ON" ∧
     onReq21.reason = "Units exceeded 100%" ∧ onReq21.reason ≠ "limit exceeded") ∧
    (enforceAccount acctB = [offReq21] ∧ offReq21.command = "OFF" ∧
     offReq21.reason = "Recharge completed" ∧ offReq21.reason ≠ "recharge completed") := by
  refine ⟨⟨?_, rfl, rfl, by decide⟩, ⟨?_, rfl, rfl, by decide⟩⟩
  · norm_num [enforceAccount, accountPct, acctA, enfAnalyzer0, List.filterMap, onReq21]
  · norm_num [enforceAccount, accountPct, acctB, enfAnalyzer0, List.filterMap, offReq21]

/-- C9 amended: every ON corrective request submitted by the Enforcement
Engine carries source `auto_limit` and reason "Units exceeded 100%", and
every OFF request carries source `auto_restore` and reason
"Recharge completed". -/
theorem reason_tags (u : EnfAccount) (req : EnqueueReq) (h : req ∈ enforceAccount u) :
    (req.command = "ON" →
      req.source = "auto_limit" ∧ req.reason = "Units exceeded 100%") ∧
    (req.command = "OFF" →
      req.source = "auto_restore" ∧ req.reason = "Recharge completed") := by
  simp only [enforceAccount, List.mem_filterMap] at h
  obtain ⟨a, _, hfa⟩ := h
  split at hfa
  · simp at hfa
  · split at hfa
    · simp at hfa
    · split at hfa
      · rw [Option.some_inj] at hfa
        subst hfa
        refine ⟨fun _ => ⟨rfl, rfl⟩, fun hc => ?_⟩
        simp at hc
      · rw [Option.some_inj] at hfa
        subst hfa
        refine ⟨fun hc => ?_, fun _ => ⟨rfl, rfl⟩⟩
        simp at hc

/-- Witness for the amended C9 at the concrete ON request of the
at-limit account. -/
theorem reason_tags_witness :
    onReq21 ∈ enforceAccount acctA ∧
    ((onReq21.command = "ON" →
       onReq21.source = "auto_limit" ∧ onReq21.reason = "Units exceeded 100%") ∧
     (onReq21.command = "OFF" →
       onReq21.source = "auto_restore" ∧ onReq21.reason = "Recharge completed")) := by
  have hm : onReq21 ∈ enforceAccount acctA := by
    norm_num [enforceAccount, accountPct, acctA, enfAnalyzer0, List.filterMap, onReq21]
  exact ⟨hm, reason_tags acctA onReq21 hm⟩

/-- C10: an active enabled analyzer whose breaker coil address is NULL gets
coil 0 (via `ISNULL` in the query and `or 0` at line 152), which lies inside
`[0, 9999]`, so the engine submits a corrective request targeting coil 0 for
it rather than skipping it — ON or OFF according to the usage percentage. -/
theorem null_coil_defaults_to_zero (u : EnfAccount) (a : Analyzer)
    (ha : a ∈ u.analyzers) (hen : a.breakerEnabled.getD 0 = 1)
    (hnull : a.breakerCoilAddress = none) :
    a.breakerCoilAddress.getD 0 = 0 ∧ (0:Int) ≥ 0 ∧ (0:Int) ≤ 9999 ∧
    (if accountPct u ≥ 100 then
       ({ analyzerId := a.analyzerId, coilAddress := 0, command := "ON",
          source := "auto_limit", reason := "Units exceeded 100%" } : EnqueueReq)
     else
       { analyzerId := a.analyzerId, coilAddress := 0, command := "OFF",
         source := "auto_restore", reason := "Recharge completed" }) ∈ enforceAccount u := by
  have h0 : a.breakerCoilAddress.getD 0 = 0 := by rw [hnull]; rfl
  refine ⟨h0, by norm_num, by norm_num, ?_⟩
  have hm := mem_enforceAccount u a ha hen (by omega) (by omega)
  rw [h0] at hm
  exact hm

/-- Witness for C10: the NULL-coil analyzer of an over-limit account
receives a corrective request targeting coil 0. -/
theorem null_coil_defaults_to_zero_witness :
    (nullCoilAnalyzer ∈ nullCoilAccount.analyzers ∧
     nullCoilAnalyzer.breakerEnabled.getD 0 = 1 ∧
     nullCoilAnalyzer.breakerCoilAddress = none) ∧
    (nullCoilAnalyzer.breakerCoilAddress.getD 0 = 0 ∧ (0:Int) ≥ 0 ∧ (0:Int) ≤ 9999 ∧
     (if accountPct nullCoilAccount ≥ 100 then
        ({ analyzerId := nullCoilAnalyzer.analyzerId, coilAddress := 0, command := "ON",
           source := "auto_limit", reason := "Units exceeded 100%" } : EnqueueReq)
      else
        { analyzerId := nullCoilAnalyzer.analyzerId, coilAddress := 0, command := "OFF",
          source := "auto_restore",
          reason := "Recharge completed" }) ∈ enforceAccount nullCoilAccount) :=
  ⟨⟨by decide, rfl, rfl⟩,
   null_coil_defaults_to_zero nullCoilAccount nullCoilAnalyzer (by decide) rfl rfl⟩

end DOWorker
